import Mathlib

/-!
Shallow embedding of the CRM mutation/filter layer of the repository
(`crm/models.py`, `crm/schema.py`, `crm/filters.py`, and the parallel
`alx_backend_graphql_crm/schema.py`), together with proofs of the frozen
claims about it.

Monetary amounts (`DecimalField(max_digits=10, decimal_places=2)`) are
modelled as integers counting cents, timestamps as integers, primary keys
as naturals.  The entity store is a triple of lists mirroring the three
tables; autoincrement primary keys are modelled by `freshId`.  Unexpected
store-level exceptions (the `except Exception` paths of the mutations) are
modelled by an explicit error-injection argument `exc`: `some e` means the
persist step raises an exception whose text is `e`.
-/

namespace Crm

/-- Fixed-point money (2 fractional digits), represented in cents. -/
abbrev Money := Int

/-- Row of the Customer table (`crm/models.py`, class `Customer`). -/
structure Customer where
  id : Nat
  name : String
  email : String
  phone : Option String
  deriving DecidableEq

/-- Row of the Product table (`crm/models.py`, class `Product`). -/
structure Product where
  id : Nat
  name : String
  price : Money
  stock : Int
  deriving DecidableEq

/-- Row of the Order table together with its M:N product association
(`crm/models.py`, class `Order`); `productIds` is the set of association
rows of the auto-created through table, so it holds no duplicates for
orders produced by the code. -/
structure Order where
  id : Nat
  customerId : Nat
  productIds : List Nat
  orderDate : Int
  totalAmount : Money
  deriving DecidableEq

/-- The entity store: the three tables. -/
structure Store where
  customers : List Customer
  products : List Product
  orders : List Order
  deriving DecidableEq

/-- Remainders of `cs` after the regex fragment `c?` consumed zero or one
characters. -/
def optChar (c : Char) : List Char → List (List Char)
  | [] => [[]]
  | x :: rest => if x = c then [x :: rest, rest] else [x :: rest]

/-- Consume exactly `n` ASCII digits (regex fragment `\d{n}`), returning the
remainder, or `none` when the input does not start with `n` digits. -/
def takeDigits : Nat → List Char → Option (List Char)
  | 0, cs => some cs
  | _ + 1, [] => none
  | n + 1, c :: cs => if c.isDigit then takeDigits n cs else none

/-- Python's `$` anchor: matches at the end of the string or just before one
trailing newline. -/
def endAnchor (cs : List Char) : Bool :=
  cs.isEmpty || cs == ['\n']

/-- First alternative of the phone regex, `^\+?1?-?\d{3}-?\d{3}-?\d{4}$`
(shared by all copies of the pattern in the repository). -/
def phoneAlt1 (cs : List Char) : Bool :=
  (optChar ('+') cs).any fun s1 =>
  (optChar '1' s1).any fun s2 =>
  (optChar '-' s2).any fun s3 =>
  match takeDigits 3 s3 with
  | none => false
  | some s4 =>
    (optChar '-' s4).any fun s5 =>
    match takeDigits 3 s5 with
    | none => false
    | some s6 =>
      (optChar '-' s6).any fun s7 =>
      match takeDigits 4 s7 with
      | none => false
      | some s8 => endAnchor s8

/-- Second alternative of the phone regex as written in `crm/schema.py` and
`crm/models.py`: `^\+?\d{10,15}$` (anchored at both ends). -/
def phoneAlt2 (cs : List Char) : Bool :=
  (optChar ('+') cs).any fun s1 =>
  (List.range 6).any fun j =>
    match takeDigits (10 + j) s1 with
    | none => false
    | some rest => endAnchor rest

/-- Second alternative of the phone regex as written in
`alx_backend_graphql_crm/schema.py` line 109: `^\+?\d{10,15}` with the
trailing `$` missing, so `re.match` only requires a matching prefix. -/
def phoneAlt2Unanchored (cs : List Char) : Bool :=
  (optChar ('+') cs).any fun s1 =>
    10 ≤ (s1.takeWhile Char.isDigit).length

/-- `re.match(r'^\+?1?-?\d{3}-?\d{3}-?\d{4}$|^\+?\d{10,15}$', s)` as a
boolean, the phone check of `crm/schema.py` (CreateCustomer and
BulkCreateCustomers) and of the model validator. -/
def phoneRegexMatch (s : String) : Bool :=
  phoneAlt1 s.data || phoneAlt2 s.data

/-- The phone check of `CreateCustomer.mutate` in
`alx_backend_graphql_crm/schema.py`, whose second alternative lacks the
final `$` anchor. -/
def alxPhoneRegexMatch (s : String) : Bool :=
  phoneAlt1 s.data || phoneAlt2Unanchored s.data

/-- Python truthiness of an optional string (`if input.phone:`). -/
def truthyStr : Option String → Bool
  | some s => !s.isEmpty
  | none => false

/-- `Customer.objects.filter(email=email).exists()`. -/
def Store.emailExists (st : Store) (email : String) : Bool :=
  st.customers.any fun c => c.email == email

/-- `Customer.objects.get(id=cid)`, returning `none` for `DoesNotExist`. -/
def Store.customerGet (st : Store) (cid : Nat) : Option Customer :=
  st.customers.find? fun c => c.id == cid

/-- `Product.objects.get(id=pid)`, returning `none` for `DoesNotExist`. -/
def Store.productGet (st : Store) (pid : Nat) : Option Product :=
  st.products.find? fun p => p.id == pid

/-- Autoincrement primary-key assignment: one more than the largest key in
use. -/
def freshId (ids : List Nat) : Nat :=
  ids.foldr max 0 + 1

/-- `Order.calculate_total`: full resummation of `price` over the products
currently associated with the given association rows. -/
def calculateTotal (st : Store) (productIds : List Nat) : Money :=
  (productIds.filterMap st.productGet).foldl (fun acc p => acc + p.price) 0

/-- Argument of CreateCustomer and item of BulkCreateCustomers
(`CustomerInput` in `crm/schema.py`). -/
structure CustomerInput where
  name : String
  email : String
  phone : Option String
  deriving DecidableEq

/-- Result shape of CreateCustomer. -/
structure CreateCustomerResult where
  customer : Option Customer
  message : String
  success : Bool
  deriving DecidableEq

/-- Validation message returned for a malformed phone number. -/
def phoneFormatMessage : String :=
  "Phone number must be in format: '+1234567890' or '123-456-7890'"

/-- `CreateCustomer.mutate`, parametrised by the phone pattern (the only
difference between the `crm/schema.py` and `alx_backend_graphql_crm`
copies).  `exc = some e` injects an exception of text `e` at the
`Customer.objects.create` step, caught by the surrounding
`except Exception`. -/
def createCustomerGen (phoneOk : String → Bool) (st : Store) (input : CustomerInput)
    (exc : Option String) : CreateCustomerResult × Store :=
  if st.emailExists input.email then
    ({ customer := none, message := "Email already exists", success := false }, st)
  else if truthyStr input.phone && !phoneOk (input.phone.getD "") then
    ({ customer := none, message := phoneFormatMessage, success := false }, st)
  else
    match exc with
    | some e =>
        ({ customer := none, message := "Error creating customer: " ++ e, success := false }, st)
    | none =>
        let c : Customer :=
          { id := freshId (st.customers.map fun c => c.id),
            name := input.name, email := input.email,
            phone := if truthyStr input.phone then input.phone else none }
        ({ customer := some c, message := "Customer created successfully", success := true },
         { st with customers := st.customers ++ [c] })

/-- `CreateCustomer.mutate` of `crm/schema.py`. -/
def createCustomer : Store → CustomerInput → Option String → CreateCustomerResult × Store :=
  createCustomerGen phoneRegexMatch

/-- `CreateCustomer.mutate` of `alx_backend_graphql_crm/schema.py` (its
phone regex lacks the final anchor). -/
def alxCreateCustomer : Store → CustomerInput → Option String → CreateCustomerResult × Store :=
  createCustomerGen alxPhoneRegexMatch

/-- Result shape of BulkCreateCustomers. -/
structure BulkCreateCustomersResult where
  customers : List Customer
  errors : List String
  successCount : Nat
  deriving DecidableEq

/-- Loop body of `BulkCreateCustomers.mutate`: processes the items in order
(`i` is the 0-based index of the first remaining item), accumulating created
customers and per-item error strings; `exc i = some e` injects an exception
of text `e` at item `i`'s create step, caught by the per-item
`except Exception`. -/
def bulkGo (exc : Nat → Option String) :
    Store → Nat → List CustomerInput → List Customer × List String × Store
  | st, _, [] => ([], [], st)
  | st, i, cd :: rest =>
    if st.emailExists cd.email then
      let (cs, es, st2) := bulkGo exc st (i + 1) rest
      (cs, ("Customer " ++ toString (i + 1) ++ ": Email '" ++ cd.email ++ "' already exists")
             :: es, st2)
    else if truthyStr cd.phone && !phoneRegexMatch (cd.phone.getD "") then
      let (cs, es, st2) := bulkGo exc st (i + 1) rest
      (cs, ("Customer " ++ toString (i + 1) ++ ": Invalid phone format") :: es, st2)
    else
      match exc i with
      | some e =>
          let (cs, es, st2) := bulkGo exc st (i + 1) rest
          (cs, ("Customer " ++ toString (i + 1) ++ ": " ++ e) :: es, st2)
      | none =>
          let c : Customer :=
            { id := freshId (st.customers.map fun c => c.id),
              name := cd.name, email := cd.email,
              phone := if truthyStr cd.phone then cd.phone else none }
          let (cs, es, st2) := bulkGo exc { st with customers := st.customers ++ [c] } (i + 1) rest
          (c :: cs, es, st2)

/-- `BulkCreateCustomers.mutate` of `crm/schema.py`. -/
def bulkCreateCustomers (st : Store) (input : List CustomerInput) (exc : Nat → Option String) :
    BulkCreateCustomersResult × Store :=
  let (cs, es, st2) := bulkGo exc st 0 input
  ({ customers := cs, errors := es, successCount := cs.length }, st2)

/-- Argument of CreateProduct (`ProductInput` in `crm/schema.py`). -/
structure ProductInput where
  name : String
  price : Money
  stock : Option Int
  deriving DecidableEq

/-- Result shape of CreateProduct. -/
structure CreateProductResult where
  product : Option Product
  message : String
  success : Bool
  deriving DecidableEq

/-- `CreateProduct.mutate` of `crm/schema.py`; `exc` injects an exception at
the `Product.objects.create` step. -/
def createProduct (st : Store) (input : ProductInput) (exc : Option String) :
    CreateProductResult × Store :=
  if input.price ≤ 0 then
    ({ product := none, message := "Price must be positive", success := false }, st)
  else
    let stock := input.stock.getD 0
    if stock < 0 then
      ({ product := none, message := "Stock cannot be negative", success := false }, st)
    else
      match exc with
      | some e =>
          ({ product := none, message := "Error creating product: " ++ e, success := false }, st)
      | none =>
          let p : Product :=
            { id := freshId (st.products.map fun p => p.id),
              name := input.name, price := input.price, stock := stock }
          ({ product := some p, message := "Product created successfully", success := true },
           { st with products := st.products ++ [p] })

/-- Argument of CreateOrder (`OrderInput` in `crm/schema.py`). -/
structure OrderInput where
  customerId : Nat
  productIds : List Nat
  orderDate : Option Int
  deriving DecidableEq

/-- Result shape of CreateOrder. -/
structure CreateOrderResult where
  order : Option Order
  message : String
  success : Bool
  deriving DecidableEq

/-- One invocation of `Order.calculate_total` during the order-creation
transaction: whether the product association set had already been finalized
(`order.products.set(products)` executed) when it ran, and the total it
computed. -/
structure RecompEvent where
  afterAssociationFinalized : Bool
  computedTotal : Money
  deriving DecidableEq

/-- Result, post-transaction store, and the ordered list of
`calculate_total` invocations of one CreateOrder call. -/
structure OrderCreationOutcome where
  result : CreateOrderResult
  store : Store
  recompEvents : List RecompEvent
  deriving DecidableEq

/-- The product-resolution loop of `CreateOrder.mutate`: resolves every id
in order, failing with the first id that has no stored product. -/
def resolveProducts (st : Store) : List Nat → Except Nat (List Product)
  | [] => Except.ok []
  | pid :: rest =>
    match st.productGet pid with
    | none => Except.error pid
    | some p =>
      match resolveProducts st rest with
      | Except.error m => Except.error m
      | Except.ok ps => Except.ok (p :: ps)

/-- `CreateOrder.mutate` of `crm/schema.py` together with the save-hook
behaviour of `Order.save` (`crm/models.py`): `Order.objects.create` runs the
overridden `save`, whose post-insert hook already calls `calculate_total`
(over the still-empty association set) and persists it; after
`order.products.set(products)` the explicit `calculate_total` runs, and the
final `order.save(update_fields=[...])` triggers the hook once more.
`exc = some e` injects an exception inside the atomic block (rolled back and
caught by the outer `except Exception`); `now` is `timezone.now()`. -/
def createOrder (st : Store) (input : OrderInput) (exc : Option String) (now : Int) :
    OrderCreationOutcome :=
  match st.customerGet input.customerId with
  | none =>
      { result := { order := none,
                    message := "Customer with ID " ++ toString input.customerId
                                 ++ " does not exist",
                    success := false },
        store := st, recompEvents := [] }
  | some customer =>
    if input.productIds.isEmpty then
      { result := { order := none, message := "At least one product must be selected",
                    success := false },
        store := st, recompEvents := [] }
    else
      match resolveProducts st input.productIds with
      | Except.error pid =>
          { result := { order := none,
                        message := "Product with ID " ++ toString pid ++ " does not exist",
                        success := false },
            store := st, recompEvents := [] }
      | Except.ok products =>
        match exc with
        | some e =>
            { result := { order := none, message := "Error creating order: " ++ e,
                          success := false },
              store := st, recompEvents := [] }
        | none =>
            let oid := freshId (st.orders.map fun o => o.id)
            let total0 := calculateTotal st []
            let assoc := (products.map fun p => p.id).dedup
            let total1 := calculateTotal st assoc
            let total2 := calculateTotal st assoc
            let order : Order :=
              { id := oid, customerId := customer.id, productIds := assoc,
                orderDate := input.orderDate.getD now, totalAmount := total2 }
            { result := { order := some order, message := "Order created successfully",
                          success := true },
              store := { st with orders := st.orders ++ [order] },
              recompEvents :=
                [{ afterAssociationFinalized := false, computedTotal := total0 },
                 { afterAssociationFinalized := true, computedTotal := total1 },
                 { afterAssociationFinalized := true, computedTotal := total2 }] }

/-- `OrderFilter.filter_product_count` of `crm/filters.py`: annotates each
order with its associated-product count and keeps the orders whose count
equals `value` — but only when `value` is truthy (`if value:`), so `value = 0`
leaves the queryset unfiltered. -/
def filter_product_count (orders : List Order) (value : Int) : List Order :=
  if value = 0 then orders
  else orders.filter fun o => (o.productIds.length : Int) = value

/-- First id of the list that does not resolve to a stored product (helper
for stating claims about the resolution loop). -/
def firstMissingProduct (st : Store) : List Nat → Option Nat
  | [] => none
  | pid :: rest =>
    match st.productGet pid with
    | none => some pid
    | some _ => firstMissingProduct st rest

/-- Sum of the prices of the stored products associated with the given
association rows (specification-side reading of the order total). -/
def sumOfPrices (st : Store) (productIds : List Nat) : Money :=
  ((productIds.filterMap st.productGet).map fun p => p.price).sum

/-! ### Sample data used by the concrete witnesses and counterexamples -/

/-- Sample stored customer. -/
def sampleCustomer : Customer :=
  { id := 1, name := "Alice", email := "alice@example.com", phone := none }

/-- Sample stored product, price 19.99. -/
def sampleProduct1 : Product :=
  { id := 1, name := "Widget", price := 1999, stock := 5 }

/-- Sample stored product, price 5.01. -/
def sampleProduct2 : Product :=
  { id := 2, name := "Gadget", price := 501, stock := 3 }

/-- Sample store with one customer and two products. -/
def sampleStore : Store :=
  { customers := [sampleCustomer], products := [sampleProduct1, sampleProduct2], orders := [] }

/-- Store with no rows at all. -/
def emptyStore : Store :=
  { customers := [], products := [], orders := [] }

/-- Sample order associated with exactly one product. -/
def sampleOrder1 : Order :=
  { id := 1, customerId := 1, productIds := [1], orderDate := 0, totalAmount := 1999 }

/-- Sample order associated with exactly two products (the order data that
`createOrder` produces on `sampleStore` for product ids `[1, 2]`). -/
def sampleOrder2 : Order :=
  { id := 1, customerId := 1, productIds := [1, 2], orderDate := 0, totalAmount := 2500 }

/-! ### Helper lemmas -/

/-- Folding addition of prices over a list equals the accumulator plus the
sum of the mapped prices. -/
theorem foldl_add_price (l : List Product) (a : Money) :
    l.foldl (fun acc p => acc + p.price) a = a + ((l.map fun p => p.price).sum) := by
  induction l generalizing a with
  | nil => simp
  | cons p t ih => simp [List.foldl_cons, ih, add_assoc]

/-- `calculate_total` computes the sum of the prices of the associated
stored products. -/
theorem calculateTotal_eq_sumOfPrices (st : Store) (pids : List Nat) :
    calculateTotal st pids = sumOfPrices st pids := by
  simp [calculateTotal, sumOfPrices, foldl_add_price]

/-- The email-uniqueness check succeeds exactly when some stored customer
has that exact email. -/
theorem emailExists_iff (st : Store) (e : String) :
    st.emailExists e = true ↔ ∃ c, c ∈ st.customers ∧ c.email = e := by
  simp [Store.emailExists, List.any_eq_true]

/-- A customer lookup by the id of a stored customer succeeds. -/
theorem customerGet_isSome (st : Store) (cid : Nat)
    (h : ∃ c, c ∈ st.customers ∧ c.id = cid) : (st.customerGet cid).isSome := by
  obtain ⟨c, hc, hid⟩ := h
  rw [Store.customerGet, List.find?_isSome]
  exact ⟨c, hc, by simp [hid]⟩

/-- When some id of the list is missing, the resolution loop fails with the
first missing id. -/
theorem resolveProducts_error (st : Store) (pids : List Nat) (m : Nat)
    (h : firstMissingProduct st pids = some m) :
    resolveProducts st pids = Except.error m := by
  induction pids with
  | nil => simp [firstMissingProduct] at h
  | cons pid rest ih =>
    cases hg : st.productGet pid with
    | none =>
        rw [firstMissingProduct, hg] at h
        simp only [Option.some.injEq] at h
        subst h
        simp [resolveProducts, hg]
    | some p =>
        rw [firstMissingProduct, hg] at h
        simp [resolveProducts, hg, ih h]

/-- A list with a missing product id is nonempty. -/
theorem firstMissingProduct_ne_nil (st : Store) (pids : List Nat) (m : Nat)
    (h : firstMissingProduct st pids = some m) : pids.isEmpty = false := by
  cases pids with
  | nil => simp [firstMissingProduct] at h
  | cons pid rest => simp

/-- Email lookup on a customer table extended by appending rows. -/
theorem emailExists_append (st : Store) (cs : List Customer) (e : String) :
    Store.emailExists { st with customers := st.customers ++ cs } e
      = (st.emailExists e || cs.any fun c => c.email == e) := by
  simp [Store.emailExists, List.any_append]

/-! ### Claims -/

/-- C1: for every successful CreateOrder call, immediately after the
transaction commits the created order is persisted and its total-amount
equals the sum of the prices of its associated products as stored; an order
whose associated-product set is empty has total-amount zero. -/
theorem createOrder_total_consistent (st : Store) (input : OrderInput) (exc : Option String)
    (now : Int) (o : Order)
    (ho : (createOrder st input exc now).result.order = some o)
    (hsucc : (createOrder st input exc now).result.success = true) :
    o ∈ (createOrder st input exc now).store.orders ∧
    o.totalAmount = sumOfPrices (createOrder st input exc now).store o.productIds ∧
    (o.productIds = [] → o.totalAmount = 0) := by
  unfold createOrder at ho hsucc ⊢
  cases hcg : st.customerGet input.customerId with
  | none => simp [hcg] at hsucc
  | some customer =>
    simp only [hcg] at ho hsucc ⊢
    by_cases hemp : input.productIds.isEmpty = true
    · simp [hemp] at hsucc
    · rw [if_neg hemp] at ho hsucc ⊢
      cases hres : resolveProducts st input.productIds with
      | error pid => simp [hres] at hsucc
      | ok products =>
        simp only [hres] at ho hsucc ⊢
        cases hexc : exc with
        | some e => simp [hexc] at hsucc
        | none =>
          simp only [hexc, Option.some.injEq] at ho ⊢
          subst ho
          refine ⟨by simp, ?_, ?_⟩
          · rw [calculateTotal_eq_sumOfPrices]
            rfl
          · intro h
            have h2 : (products.map fun p => p.id).dedup = [] := h
            show calculateTotal st ((products.map fun p => p.id).dedup) = 0
            rw [h2]
            rfl

/-- C1 witness: a concrete successful CreateOrder on `sampleStore`. -/
theorem createOrder_total_consistent_witness :
    ((createOrder sampleStore ⟨1, [1, 2], none⟩ none 0).result.order = some sampleOrder2 ∧
     (createOrder sampleStore ⟨1, [1, 2], none⟩ none 0).result.success = true) ∧
    (sampleOrder2 ∈ (createOrder sampleStore ⟨1, [1, 2], none⟩ none 0).store.orders ∧
     sampleOrder2.totalAmount =
       sumOfPrices (createOrder sampleStore ⟨1, [1, 2], none⟩ none 0).store
         sampleOrder2.productIds ∧
     (sampleOrder2.productIds = [] → sampleOrder2.totalAmount = 0)) :=
  ⟨⟨by decide, by decide⟩,
   createOrder_total_consistent sampleStore ⟨1, [1, 2], none⟩ none 0 sampleOrder2
     (by decide) (by decide)⟩

/-- C2 counterexample: a CreateOrder call whose product-ids list contains an
unresolvable id (5) but whose customer id is also unresolvable returns the
customer-not-found message, not a message naming the missing product id, so
the claim fails as stated when the customer id does not resolve. -/
theorem createOrder_missing_product_message_counterexample :
    emptyStore.productGet 5 = none ∧
    (createOrder emptyStore ⟨1, [5], none⟩ none 0).result.success = false ∧
    (createOrder emptyStore ⟨1, [5], none⟩ none 0).result.message =
      "Customer with ID 1 does not exist" ∧
    (createOrder emptyStore ⟨1, [5], none⟩ none 0).result.message ≠
      "Product with ID 5 does not exist" := by
  refine ⟨by decide, by decide, by decide, by decide⟩

/-- C2 amended: for every CreateOrder call whose customer id resolves to a
stored customer and whose product-ids list contains at least one id that
does not resolve to a stored product, the mutation returns success false
with a message naming the first missing product id, creates no order, and
leaves the store unchanged. -/
theorem createOrder_missing_product_aborts (st : Store) (input : OrderInput)
    (exc : Option String) (now : Int) (m : Nat)
    (hc : ∃ c, c ∈ st.customers ∧ c.id = input.customerId)
    (hm : firstMissingProduct st input.productIds = some m) :
    (createOrder st input exc now).result.success = false ∧
    (createOrder st input exc now).result.message =
      "Product with ID " ++ toString m ++ " does not exist" ∧
    (createOrder st input exc now).result.order = none ∧
    (createOrder st input exc now).store = st := by
  obtain ⟨c, hcg⟩ := Option.isSome_iff_exists.mp (customerGet_isSome st input.customerId hc)
  have hemp := firstMissingProduct_ne_nil st input.productIds m hm
  have hres := resolveProducts_error st input.productIds m hm
  unfold createOrder
  simp [hcg, hemp, hres]

/-- C2 witness: a concrete CreateOrder on a store that has the customer but
not the requested product. -/
theorem createOrder_missing_product_aborts_witness :
    ((∃ c, c ∈ sampleStore.customers ∧ c.id = 1) ∧
     firstMissingProduct sampleStore [5, 1] = some 5) ∧
    ((createOrder sampleStore ⟨1, [5, 1], none⟩ none 0).result.success = false ∧
     (createOrder sampleStore ⟨1, [5, 1], none⟩ none 0).result.message =
       "Product with ID " ++ toString 5 ++ " does not exist" ∧
     (createOrder sampleStore ⟨1, [5, 1], none⟩ none 0).result.order = none ∧
     (createOrder sampleStore ⟨1, [5, 1], none⟩ none 0).store = sampleStore) :=
  ⟨⟨⟨sampleCustomer, by decide, by decide⟩, by decide⟩,
   createOrder_missing_product_aborts sampleStore ⟨1, [5, 1], none⟩ none 0 5
     ⟨sampleCustomer, by decide, by decide⟩ (by decide)⟩

/-- C3 counterexample: in a concrete successful order-creation transaction
the total recomputation runs three times, not exactly once, and its first
run happens before the product association set is finalized. -/
theorem createOrder_recomputation_count_counterexample :
    (createOrder sampleStore ⟨1, [1], none⟩ none 0).result.success = true ∧
    (createOrder sampleStore ⟨1, [1], none⟩ none 0).recompEvents.length = 3 ∧
    ((createOrder sampleStore ⟨1, [1], none⟩ none 0).recompEvents.map
       fun e => e.afterAssociationFinalized) = [false, true, true] := by
  refine ⟨by decide, by decide, by decide⟩

/-- C3 amended: in every successful order-creation transaction the
recomputation is triggered three times — once by the save hook on the
initial row insert, before the association set is finalized (computing 0
over the empty set), and twice after the association set is finalized and
before the transaction commits — and the value of the last recomputation is
the committed total. -/
theorem createOrder_recomputation_schedule (st : Store) (input : OrderInput)
    (exc : Option String) (now : Int)
    (hsucc : (createOrder st input exc now).result.success = true) :
    ∃ o, (createOrder st input exc now).result.order = some o ∧
      (createOrder st input exc now).recompEvents =
        [{ afterAssociationFinalized := false, computedTotal := 0 },
         { afterAssociationFinalized := true, computedTotal := o.totalAmount },
         { afterAssociationFinalized := true, computedTotal := o.totalAmount }] := by
  unfold createOrder at hsucc ⊢
  cases hcg : st.customerGet input.customerId with
  | none => simp [hcg] at hsucc
  | some customer =>
    simp only [hcg] at hsucc ⊢
    by_cases hemp : input.productIds.isEmpty = true
    · simp [hemp] at hsucc
    · rw [if_neg hemp] at hsucc ⊢
      cases hres : resolveProducts st input.productIds with
      | error pid => simp [hres] at hsucc
      | ok products =>
        simp only [hres] at hsucc ⊢
        cases hexc : exc with
        | some e => simp [hexc] at hsucc
        | none =>
          simp only [hexc]
          exact ⟨_, rfl, rfl⟩

/-- C3 witness: concrete instance of the amended recomputation schedule. -/
theorem createOrder_recomputation_schedule_witness :
    ((createOrder sampleStore ⟨1, [1], none⟩ none 0).result.success = true) ∧
    (∃ o, (createOrder sampleStore ⟨1, [1], none⟩ none 0).result.order = some o ∧
      (createOrder sampleStore ⟨1, [1], none⟩ none 0).recompEvents =
        [{ afterAssociationFinalized := false, computedTotal := 0 },
         { afterAssociationFinalized := true, computedTotal := o.totalAmount },
         { afterAssociationFinalized := true, computedTotal := o.totalAmount }]) :=
  ⟨by decide,
   createOrder_recomputation_schedule sampleStore ⟨1, [1], none⟩ none 0 (by decide)⟩

/-- C4 counterexample: with `product_count = 0` the filter is a no-op — an
order with one associated product is returned even though its count is not
0, so the claim fails at the integer 0. -/
theorem filter_product_count_zero_counterexample :
    sampleOrder1 ∈ filter_product_count [sampleOrder1] 0 ∧
    sampleOrder1.productIds.length ≠ 0 := by
  refine ⟨by decide, by decide⟩

/-- C4 amended: for every nonzero integer `n`, the `product_count` filter
returns exactly those orders whose associated-product count equals `n`; for
`n = 0` the filter leaves the order list unchanged. -/
theorem filter_product_count_exact (orders : List Order) (n : Int) (hn : n ≠ 0) (o : Order) :
    o ∈ filter_product_count orders n ↔
      o ∈ orders ∧ (o.productIds.length : Int) = n := by
  simp [filter_product_count, hn, List.mem_filter]

/-- C4 witness: `product_count = 2` keeps exactly the order with two
associated products. -/
theorem filter_product_count_exact_witness :
    ((2 : Int) ≠ 0) ∧
    (sampleOrder2 ∈ filter_product_count [sampleOrder1, sampleOrder2] 2 ↔
      sampleOrder2 ∈ [sampleOrder1, sampleOrder2] ∧
        (sampleOrder2.productIds.length : Int) = 2) :=
  ⟨by decide,
   filter_product_count_exact [sampleOrder1, sampleOrder2] 2 (by decide) sampleOrder2⟩

/-- C7: CreateCustomer with an email equal (case-sensitive exact match as
persisted) to some existing customer's email returns success false with the
duplicate message, and the store — in particular the customer table — is
unchanged. -/
theorem createCustomer_duplicate_email (st : Store) (input : CustomerInput)
    (exc : Option String)
    (h : ∃ c, c ∈ st.customers ∧ c.email = input.email) :
    (createCustomer st input exc).1.success = false ∧
    (createCustomer st input exc).1.customer = none ∧
    (createCustomer st input exc).1.message = "Email already exists" ∧
    (createCustomer st input exc).2 = st := by
  have he : st.emailExists input.email = true := (emailExists_iff st input.email).mpr h
  simp [createCustomer, createCustomerGen, he]

/-- C7 witness: duplicate email on the sample store. -/
theorem createCustomer_duplicate_email_witness :
    (∃ c, c ∈ sampleStore.customers ∧ c.email = "alice@example.com") ∧
    ((createCustomer sampleStore ⟨"Mallory", "alice@example.com", none⟩ none).1.success = false ∧
     (createCustomer sampleStore ⟨"Mallory", "alice@example.com", none⟩ none).1.customer = none ∧
     (createCustomer sampleStore ⟨"Mallory", "alice@example.com", none⟩ none).1.message =
       "Email already exists" ∧
     (createCustomer sampleStore ⟨"Mallory", "alice@example.com", none⟩ none).2 = sampleStore) :=
  ⟨⟨sampleCustomer, by decide, by decide⟩,
   createCustomer_duplicate_email sampleStore ⟨"Mallory", "alice@example.com", none⟩ none
     ⟨sampleCustomer, by decide, by decide⟩⟩

/-- C9: CreateOrder with an empty product-ids list and an existing customer
returns success false with the empty-selection message, creates no order,
and leaves the store unchanged. -/
theorem createOrder_empty_products (st : Store) (input : OrderInput) (exc : Option String)
    (now : Int)
    (hc : ∃ c, c ∈ st.customers ∧ c.id = input.customerId)
    (hp : input.productIds = []) :
    (createOrder st input exc now).result.success = false ∧
    (createOrder st input exc now).result.message = "At least one product must be selected" ∧
    (createOrder st input exc now).result.order = none ∧
    (createOrder st input exc now).store = st := by
  obtain ⟨c, hcg⟩ := Option.isSome_iff_exists.mp (customerGet_isSome st input.customerId hc)
  unfold createOrder
  simp [hcg, hp]

/-- C9 witness: empty product-ids list against the sample store. -/
theorem createOrder_empty_products_witness :
    ((∃ c, c ∈ sampleStore.customers ∧ c.id = 1) ∧ ([] : List Nat) = []) ∧
    ((createOrder sampleStore ⟨1, [], none⟩ none 0).result.success = false ∧
     (createOrder sampleStore ⟨1, [], none⟩ none 0).result.message =
       "At least one product must be selected" ∧
     (createOrder sampleStore ⟨1, [], none⟩ none 0).result.order = none ∧
     (createOrder sampleStore ⟨1, [], none⟩ none 0).store = sampleStore) :=
  ⟨⟨⟨sampleCustomer, by decide, by decide⟩, rfl⟩,
   createOrder_empty_products sampleStore ⟨1, [], none⟩ none 0
     ⟨sampleCustomer, by decide, by decide⟩ rfl⟩

/-- Every item processed by the bulk loop contributes exactly one outcome:
either one created customer or one error string. -/
theorem bulkGo_partition (exc : Nat → Option String) (inputs : List CustomerInput) :
    ∀ (st : Store) (i : Nat),
      (bulkGo exc st i inputs).1.length + (bulkGo exc st i inputs).2.1.length
        = inputs.length := by
  induction inputs with
  | nil => intro st i; simp [bulkGo]
  | cons cd rest ih =>
    intro st i
    by_cases h1 : st.emailExists cd.email
    · have hlen := ih st (i + 1)
      rcases hgo : bulkGo exc st (i + 1) rest with ⟨cs, es, st2⟩
      rw [hgo] at hlen
      simp [bulkGo, h1, hgo] at hlen ⊢
      omega
    · by_cases h2 : truthyStr cd.phone && !phoneRegexMatch (cd.phone.getD "")
      · have hlen := ih st (i + 1)
        rcases hgo : bulkGo exc st (i + 1) rest with ⟨cs, es, st2⟩
        rw [hgo] at hlen
        simp [bulkGo, h1, h2, hgo] at hlen ⊢
        omega
      · cases hexc : exc i with
        | some e =>
          have hlen := ih st (i + 1)
          rcases hgo : bulkGo exc st (i + 1) rest with ⟨cs, es, st2⟩
          rw [hgo] at hlen
          simp [bulkGo, h1, h2, hexc, hgo] at hlen ⊢
          omega
        | none =>
          have hlen := ih { st with customers := st.customers ++
            [{ id := freshId (st.customers.map fun c => c.id),
               name := cd.name, email := cd.email,
               phone := if truthyStr cd.phone then cd.phone else none }] } (i + 1)
          rcases hgo : bulkGo exc { st with customers := st.customers ++
            [{ id := freshId (st.customers.map fun c => c.id),
               name := cd.name, email := cd.email,
               phone := if truthyStr cd.phone then cd.phone else none }] } (i + 1) rest
            with ⟨cs, es, st2⟩
          rw [hgo] at hlen
          simp [bulkGo, h1, h2, hexc, hgo] at hlen ⊢
          omega

/-- C10: in every BulkCreateCustomers call each input item yields exactly
one outcome — a created customer or an error string — so the lengths of the
returned customers and errors lists add up to the input length, and the
success count equals the length of the returned customers list. -/
theorem bulkCreateCustomers_outcome_partition (st : Store) (inputs : List CustomerInput)
    (exc : Nat → Option String) :
    (bulkCreateCustomers st inputs exc).1.customers.length +
      (bulkCreateCustomers st inputs exc).1.errors.length = inputs.length ∧
    (bulkCreateCustomers st inputs exc).1.successCount =
      (bulkCreateCustomers st inputs exc).1.customers.length := by
  have h := bulkGo_partition exc inputs st 0
  rcases hgo : bulkGo exc st 0 inputs with ⟨cs, es, st2⟩
  rw [hgo] at h
  simp only [bulkCreateCustomers, hgo]
  simpa using h

/-- C6: BulkCreateCustomers on three inputs whose middle item carries a
duplicate email (and whose first and third items are valid) records one
error string for position 2, skips that item without aborting the batch,
reports a success count of 2, and persists exactly 2 new customers. -/
theorem bulkCreateCustomers_middle_duplicate (st : Store) (c1 c2 c3 : CustomerInput)
    (h1 : st.emailExists c1.email = false)
    (h1p : truthyStr c1.phone = false)
    (h2 : st.emailExists c2.email = true)
    (h3 : st.emailExists c3.email = false)
    (h31 : c3.email ≠ c1.email)
    (h3p : truthyStr c3.phone = false) :
    (bulkCreateCustomers st [c1, c2, c3] fun _ => none).1.successCount = 2 ∧
    (bulkCreateCustomers st [c1, c2, c3] fun _ => none).1.errors =
      ["Customer 2: Email '" ++ c2.email ++ "' already exists"] ∧
    (bulkCreateCustomers st [c1, c2, c3] fun _ => none).2.customers.length =
      st.customers.length + 2 := by
  have hphone1 : (truthyStr c1.phone && !phoneRegexMatch (c1.phone.getD "")) = false := by
    simp [h1p]
  have hphone3 : (truthyStr c3.phone && !phoneRegexMatch (c3.phone.getD "")) = false := by
    simp [h3p]
  have e2 : Store.emailExists { st with customers := st.customers ++
      [{ id := freshId (st.customers.map fun c => c.id), name := c1.name, email := c1.email,
         phone := if truthyStr c1.phone then c1.phone else none }] } c2.email = true := by
    rw [emailExists_append]
    simp [h2]
  have e3 : Store.emailExists { st with customers := st.customers ++
      [{ id := freshId (st.customers.map fun c => c.id), name := c1.name, email := c1.email,
         phone := if truthyStr c1.phone then c1.phone else none }] } c3.email = false := by
    rw [emailExists_append]
    simp [h3]
    exact fun h => h31 h.symm
  refine ⟨?_, ?_, ?_⟩
  · simp [bulkCreateCustomers, bulkGo, h1, hphone1, e2, e3, hphone3]
  · simp [bulkCreateCustomers, bulkGo, h1, hphone1, e2, e3, hphone3]
    rfl
  · simp [bulkCreateCustomers, bulkGo, h1, hphone1, e2, e3, hphone3]

/-- C6 witness: three concrete inputs against the sample store, the middle
one reusing the stored email. -/
theorem bulkCreateCustomers_middle_duplicate_witness :
    (sampleStore.emailExists "a@x.com" = false ∧ truthyStr none = false ∧
     sampleStore.emailExists "alice@example.com" = true ∧
     sampleStore.emailExists "c@x.com" = false ∧ ("c@x.com" : String) ≠ "a@x.com") ∧
    ((bulkCreateCustomers sampleStore
        [⟨"A", "a@x.com", none⟩, ⟨"B", "alice@example.com", none⟩, ⟨"C", "c@x.com", none⟩]
        fun _ => none).1.successCount = 2 ∧
     (bulkCreateCustomers sampleStore
        [⟨"A", "a@x.com", none⟩, ⟨"B", "alice@example.com", none⟩, ⟨"C", "c@x.com", none⟩]
        fun _ => none).1.errors =
       ["Customer 2: Email '" ++ "alice@example.com" ++ "' already exists"] ∧
     (bulkCreateCustomers sampleStore
        [⟨"A", "a@x.com", none⟩, ⟨"B", "alice@example.com", none⟩, ⟨"C", "c@x.com", none⟩]
        fun _ => none).2.customers.length = sampleStore.customers.length + 2) :=
  ⟨⟨by decide, by decide, by decide, by decide, by decide⟩,
   bulkCreateCustomers_middle_duplicate sampleStore ⟨"A", "a@x.com", none⟩
     ⟨"B", "alice@example.com", none⟩ ⟨"C", "c@x.com", none⟩
     (by decide) (by decide) (by decide) (by decide) (by decide) (by decide)⟩

/-- C5: every mutation returns the structured result shape and never lets a
store exception escape: an unexpected store error injected at the persist
step is caught and converted into the failure shape with the exception text
embedded in the message — for the bulk mutation into the positional error
string — and the store is left unchanged; when an earlier validation step
fails instead, the message is the corresponding validation message. -/
theorem mutations_convert_store_errors (st : Store) (cin : CustomerInput)
    (pin : ProductInput) (oin : OrderInput) (e : String) (now : Int)
    (hfresh : st.emailExists cin.email = false)
    (hphone : truthyStr cin.phone = false) :
    ((createCustomer st cin (some e)).1.success = false ∧
     (createCustomer st cin (some e)).1.customer = none ∧
     (createCustomer st cin (some e)).1.message = "Error creating customer: " ++ e ∧
     (createCustomer st cin (some e)).2 = st) ∧
    ((∀ inputs exc, (bulkCreateCustomers st inputs exc).1.successCount =
        (bulkCreateCustomers st inputs exc).1.customers.length) ∧
     (bulkCreateCustomers st [cin] fun _ => some e).1.customers = [] ∧
     (bulkCreateCustomers st [cin] fun _ => some e).1.errors = ["Customer 1: " ++ e] ∧
     (bulkCreateCustomers st [cin] fun _ => some e).2 = st) ∧
    ((createProduct st pin (some e)).1.success = false ∧
     (createProduct st pin (some e)).1.product = none ∧
     (createProduct st pin (some e)).2 = st ∧
     ((createProduct st pin (some e)).1.message = "Price must be positive" ∨
      (createProduct st pin (some e)).1.message = "Stock cannot be negative" ∨
      (createProduct st pin (some e)).1.message = "Error creating product: " ++ e)) ∧
    ((createOrder st oin (some e) now).result.success = false ∧
     (createOrder st oin (some e) now).result.order = none ∧
     (createOrder st oin (some e) now).store = st ∧
     ((createOrder st oin (some e) now).result.message =
        "Customer with ID " ++ toString oin.customerId ++ " does not exist" ∨
      (createOrder st oin (some e) now).result.message =
        "At least one product must be selected" ∨
      (∃ pid : Nat, (createOrder st oin (some e) now).result.message =
        "Product with ID " ++ toString pid ++ " does not exist") ∨
      (createOrder st oin (some e) now).result.message = "Error creating order: " ++ e)) := by
  refine ⟨?_, ?_, ?_, ?_⟩
  · simp [createCustomer, createCustomerGen, hfresh, hphone]
  · refine ⟨fun inputs exc => ?_, ?_, ?_, ?_⟩
    · rcases hgo : bulkGo exc st 0 inputs with ⟨cs, es, st2⟩
      simp [bulkCreateCustomers, hgo]
    · simp [bulkCreateCustomers, bulkGo, hfresh, hphone]
    · simp only [bulkCreateCustomers, bulkGo, hfresh, hphone]
      simp
      rfl
    · simp [bulkCreateCustomers, bulkGo, hfresh, hphone]
  · by_cases hp : pin.price ≤ 0
    · simp [createProduct, hp]
    · by_cases hs : pin.stock.getD 0 < 0
      · simp [createProduct, hp, hs]
      · simp [createProduct, hp, hs]
  · cases hcg : st.customerGet oin.customerId with
    | none =>
        refine ⟨by simp [createOrder, hcg], by simp [createOrder, hcg],
                by simp [createOrder, hcg], Or.inl (by simp [createOrder, hcg])⟩
    | some c =>
      by_cases hemp : oin.productIds.isEmpty = true
      · refine ⟨by simp [createOrder, hcg, hemp], by simp [createOrder, hcg, hemp],
                by simp [createOrder, hcg, hemp],
                Or.inr (Or.inl (by simp [createOrder, hcg, hemp]))⟩
      · cases hres : resolveProducts st oin.productIds with
        | error pid =>
            refine ⟨by simp [createOrder, hcg, hemp, hres],
                    by simp [createOrder, hcg, hemp, hres],
                    by simp [createOrder, hcg, hemp, hres],
                    Or.inr (Or.inr (Or.inl ⟨pid, by simp [createOrder, hcg, hemp, hres]⟩))⟩
        | ok products =>
            refine ⟨by simp [createOrder, hcg, hemp, hres],
                    by simp [createOrder, hcg, hemp, hres],
                    by simp [createOrder, hcg, hemp, hres],
                    Or.inr (Or.inr (Or.inr (by simp [createOrder, hcg, hemp, hres])))⟩

/-- C5 witness: a concrete store error "boom" injected into each mutation
against the sample store. -/
theorem mutations_convert_store_errors_witness :
    (sampleStore.emailExists "bob@x.com" = false ∧ truthyStr none = false) ∧
    (((createCustomer sampleStore ⟨"Bob", "bob@x.com", none⟩ (some "boom")).1.success = false ∧
      (createCustomer sampleStore ⟨"Bob", "bob@x.com", none⟩ (some "boom")).1.customer = none ∧
      (createCustomer sampleStore ⟨"Bob", "bob@x.com", none⟩ (some "boom")).1.message =
        "Error creating customer: " ++ "boom" ∧
      (createCustomer sampleStore ⟨"Bob", "bob@x.com", none⟩ (some "boom")).2 = sampleStore) ∧
     ((∀ inputs exc, (bulkCreateCustomers sampleStore inputs exc).1.successCount =
         (bulkCreateCustomers sampleStore inputs exc).1.customers.length) ∧
      (bulkCreateCustomers sampleStore [⟨"Bob", "bob@x.com", none⟩]
         fun _ => some "boom").1.customers = [] ∧
      (bulkCreateCustomers sampleStore [⟨"Bob", "bob@x.com", none⟩]
         fun _ => some "boom").1.errors = ["Customer 1: " ++ "boom"] ∧
      (bulkCreateCustomers sampleStore [⟨"Bob", "bob@x.com", none⟩]
         fun _ => some "boom").2 = sampleStore) ∧
     ((createProduct sampleStore ⟨"Thing", 100, none⟩ (some "boom")).1.success = false ∧
      (createProduct sampleStore ⟨"Thing", 100, none⟩ (some "boom")).1.product = none ∧
      (createProduct sampleStore ⟨"Thing", 100, none⟩ (some "boom")).2 = sampleStore ∧
      ((createProduct sampleStore ⟨"Thing", 100, none⟩ (some "boom")).1.message =
         "Price must be positive" ∨
       (createProduct sampleStore ⟨"Thing", 100, none⟩ (some "boom")).1.message =
         "Stock cannot be negative" ∨
       (createProduct sampleStore ⟨"Thing", 100, none⟩ (some "boom")).1.message =
         "Error creating product: " ++ "boom")) ∧
     ((createOrder sampleStore ⟨1, [1], none⟩ (some "boom") 0).result.success = false ∧
      (createOrder sampleStore ⟨1, [1], none⟩ (some "boom") 0).result.order = none ∧
      (createOrder sampleStore ⟨1, [1], none⟩ (some "boom") 0).store = sampleStore ∧
      ((createOrder sampleStore ⟨1, [1], none⟩ (some "boom") 0).result.message =
         "Customer with ID " ++ toString (1 : Nat) ++ " does not exist" ∨
       (createOrder sampleStore ⟨1, [1], none⟩ (some "boom") 0).result.message =
         "At least one product must be selected" ∨
       (∃ pid : Nat, (createOrder sampleStore ⟨1, [1], none⟩ (some "boom") 0).result.message =
         "Product with ID " ++ toString pid ++ " does not exist") ∨
       (createOrder sampleStore ⟨1, [1], none⟩ (some "boom") 0).result.message =
         "Error creating order: " ++ "boom"))) :=
  ⟨⟨by decide, by decide⟩,
   mutations_convert_store_errors sampleStore ⟨"Bob", "bob@x.com", none⟩
     ⟨"Thing", 100, none⟩ ⟨1, [1], none⟩ "boom" 0 (by decide) (by decide)⟩

/-- C8: evaluation at the failing input. The CreateCustomer copy in
`alx_backend_graphql_crm/schema.py` accepts the phone "+1234567890abcdef"
and persists the customer, because the second alternative of its regex
lacks the final anchor; the input does not match the documented pattern
(the anchored regex used by the model validator and by `crm/schema.py`,
whose CreateCustomer rejects the same input with the invalid-phone
message). -/
theorem alx_phone_anchor_dropped :
    phoneRegexMatch "+1234567890abcdef" = false ∧
    (alxCreateCustomer sampleStore
       ⟨"Bob", "bob@x.com", some "+1234567890abcdef"⟩ none).1.success = true ∧
    (alxCreateCustomer sampleStore
       ⟨"Bob", "bob@x.com", some "+1234567890abcdef"⟩ none).2.customers.length =
      sampleStore.customers.length + 1 ∧
    (createCustomer sampleStore
       ⟨"Bob", "bob@x.com", some "+1234567890abcdef"⟩ none).1.success = false ∧
    (createCustomer sampleStore
       ⟨"Bob", "bob@x.com", some "+1234567890abcdef"⟩ none).1.message = phoneFormatMessage := by
  refine ⟨by decide, by decide, by decide, by decide, by decide⟩

end Crm
